import Mathlib

/-!
Shallow embedding of the Guard-X client core (admin aggregator, camera
client capture loop, video-tile overlay renderer, socket utility) and
proofs of the specification claims about it.

Source files embedded:
* `src/src/pages/AdminDashboard.jsx` — admin aggregator state and handlers
* `src/src/pages/CameraClient.jsx` — camera session / capture loop control
* `src/unnamed/part_000` (VideoTile component) — overlay renderer
* `src/src/utils/socket.js` — socket module singleton
-/

/-! ## Data model (spec §3, mirrored from the JSX state shapes) -/

/-- DetectionSet as carried in `detection:result` payloads:
`{count, boxes, labels, confidences}`.  Boxes are `(x1,y1,x2,y2)`
corner pairs; numeric fields are modelled as `Int`/`ℚ`. -/
structure DetectionSet where
  count : Int
  boxes : List (ℚ × ℚ × ℚ × ℚ)
  labels : List String
  confidences : List ℚ
deriving DecidableEq, Repr

/-- DetectionPayload `{camera_id, camera_sid, frame, detections, timestamp}`.
`detections` is optional because the handlers guard with `data.detections?.…`. -/
structure DetectionPayload where
  camera_id : String
  camera_sid : String
  frame : String
  detections : Option DetectionSet
  timestamp : Int
deriving DecidableEq, Repr

/-- CameraRecord as built by the `camera:connected` handler
(`AdminDashboard.jsx` lines 64–70). -/
structure CameraRecord where
  sid : String
  username : String
  camera_id : String
  deployed : Bool
deriving DecidableEq, Repr

/-- The `stats` state object of `AdminDashboard.jsx` (lines 29–34). -/
structure AdminStats where
  totalCameras : Nat
  deployedCameras : Nat
  totalDetections : Int
  activeThreats : Int
deriving DecidableEq, Repr

/-- The admin node's relevant React state: the `cameras` list, the
`detections` object (a string-keyed map, modelled as an association
list with unique keys kept in insertion order, matching JS object
semantics), and `stats`. -/
structure AdminState where
  cameras : List CameraRecord
  detections : List (String × DetectionPayload)
  stats : AdminStats
deriving DecidableEq, Repr

/-- Initial admin state (`AdminDashboard.jsx` lines 27–34). -/
def initialAdminState : AdminState :=
  { cameras := []
    detections := []
    stats := { totalCameras := 0, deployedCameras := 0,
               totalDetections := 0, activeThreats := 0 } }

/-- `det.detections?.count || 0` (lines 122 and 126): the count of a
payload, or 0 when the `detections` field is absent. -/
def payloadCount (d : DetectionPayload) : Int :=
  match d.detections with
  | some ds => ds.count
  | none => 0

/-- `Object.values(m).reduce((sum, det) => sum + (det.detections?.count || 0), 0)`
(lines 121–122). -/
def sumCounts (m : List (String × DetectionPayload)) : Int :=
  m.foldl (fun acc p => acc + payloadCount p.2) 0

/-- JS object spread update `{...prev, [k]: v}`: replace the value in
place when the key exists, append otherwise. -/
def mapInsert (m : List (String × DetectionPayload)) (k : String)
    (v : DetectionPayload) : List (String × DetectionPayload) :=
  if m.any (fun p => p.1 == k) then
    m.map (fun p => if p.1 == k then (k, v) else p)
  else
    m ++ [(k, v)]

/-- `updateStats` (`AdminDashboard.jsx` lines 141–148): recompute
`totalCameras` and `deployedCameras` from a camera list, keeping the
other two stats fields. -/
def updateStats (stats : AdminStats) (cameraList : List CameraRecord) : AdminStats :=
  { stats with
    totalCameras := cameraList.length
    deployedCameras := (cameraList.filter (fun cam => cam.deployed)).length }

/-- The `camera:connected` handler (lines 62–74): append a new record
with `deployed: false` (no duplicate check) and recompute camera stats. -/
def onCameraConnected (s : AdminState) (sid username camera_id : String) : AdminState :=
  let newCameras := s.cameras ++
    [{ sid := sid, username := username, camera_id := camera_id, deployed := false }]
  { s with cameras := newCameras, stats := updateStats s.stats newCameras }

/-- The `camera:disconnect` handler (lines 76–88): filter the record
with the given sid out of the registry, recompute camera stats, and
delete the detection payload keyed by that sid. -/
def onCameraDisconnect (s : AdminState) (sid : String) : AdminState :=
  let newCameras := s.cameras.filter (fun cam => cam.sid != sid)
  { cameras := newCameras
    detections := s.detections.filter (fun p => p.1 != sid)
    stats := updateStats s.stats newCameras }

/-- The `deploy:success` handler (lines 91–100): flip the matching
record's `deployed` flag and recompute camera stats. -/
def onDeploySuccess (s : AdminState) (camera_sid : String) : AdminState :=
  let newCameras := s.cameras.map (fun cam =>
    if cam.sid == camera_sid then { cam with deployed := true } else cam)
  { s with cameras := newCameras, stats := updateStats s.stats newCameras }

/-- The `detection:result` handler (lines 103–133): last-write-wins
replace of the per-sid payload, add the arriving count to the monotonic
`totalDetections`, and recompute `activeThreats` as the sum of counts
over the updated payload map. -/
def onDetectionResult (s : AdminState) (data : DetectionPayload) : AdminState :=
  let updatedDetections := mapInsert s.detections data.camera_sid data
  { s with
    detections := updatedDetections
    stats := { s.stats with
      totalDetections := s.stats.totalDetections + payloadCount data
      activeThreats := sumCounts updatedDetections } }

/-- `handleStop` (lines 162–182): when not connected, alert and return;
otherwise emit `deploy_stop`, flip the record's `deployed` flag to
false locally, and delete the camera's detection payload.  Note: it
does not call `updateStats` and does not touch `stats`. -/
def handleStop (s : AdminState) (cameraSid : String) (connected : Bool) : AdminState :=
  if ¬ connected then s
  else
    { s with
      cameras := s.cameras.map (fun cam =>
        if cam.sid == cameraSid then { cam with deployed := false } else cam)
      detections := s.detections.filter (fun p => p.1 != cameraSid) }

/-- The detection-arrival and payload-removal events of the aggregator:
`detection:result` arrivals, `camera:disconnect` events, and locally
issued stops (`handleStop` while connected). -/
inductive AdminEvent where
  | arrival (data : DetectionPayload)
  | disconnect (sid : String)
  | localStop (sid : String)
deriving DecidableEq, Repr

/-- One aggregator step per event. -/
def stepAdmin (s : AdminState) : AdminEvent → AdminState
  | .arrival data => onDetectionResult s data
  | .disconnect sid => onCameraDisconnect s sid
  | .localStop sid => handleStop s sid true

/-- Run a sequence of aggregator events from a state. -/
def runAdmin (s : AdminState) (es : List AdminEvent) : AdminState :=
  es.foldl stepAdmin s

/-- A concrete detection payload with one detection (count 1). -/
def samplePayload : DetectionPayload :=
  { camera_id := "cam1", camera_sid := "s1", frame := "AAA"
    detections := some { count := 1, boxes := [((10 : ℚ), 10, 50, 50)],
                         labels := ["Weapon"], confidences := [(87 : ℚ)/100] }
    timestamp := 0 }

/-! ## Camera client (`src/src/pages/CameraClient.jsx`) -/

/-- A media track of the acquired capture stream; `stop()` sets
`stopped`. -/
structure Track where
  id : Nat
  stopped : Bool
deriving DecidableEq, Repr

/-- The camera client's relevant state: the recurring-timer handle
(`intervalRef.current`), the acquired stream handle (`streamRef.current`,
carrying its tracks), whether the video element has a source object,
the `streaming`/`deployed`/`connected` flags, the preview detection,
and the `stats.status` string. -/
structure CamState where
  intervalRef : Option Nat
  streamRef : Option (List Track)
  videoSrcObject : Bool
  streaming : Bool
  deployed : Bool
  connected : Bool
  currentDetection : Option DetectionPayload
  status : String
deriving DecidableEq, Repr

/-- `stopStreaming` (`CameraClient.jsx` lines 230–252): clear the
interval and null its handle, stop every track of the acquired stream
and null the stream handle, clear the video source, reset
`streaming`/`currentDetection`, and set status from the closure's
captured `deployed` value.  The returned list holds the stream's
tracks after the per-track `stop()` calls, so their final `stopped`
state stays observable after the handle is nulled. -/
def stopStreaming (capturedDeployed : Bool) (s : CamState) : CamState × List Track :=
  let stoppedTracks :=
    match s.streamRef with
    | some tracks => tracks.map (fun t => { t with stopped := true })
    | none => []
  ({ s with
      intervalRef := none
      streamRef := none
      videoSrcObject := false
      streaming := false
      currentDetection := none
      status := if capturedDeployed then "DEPLOYED" else "IDLE" },
   stoppedTracks)

/-- Outcome of `navigator.mediaDevices.getUserMedia` from the point of
view of `startStreaming`: a stream with its tracks, the unsupported
check throwing, or the permission/device rejection. -/
inductive AcquireResult where
  | ok (tracks : List Track)
  | unsupported
  | failure (msg : String)
deriving DecidableEq, Repr

/-- `startStreaming` (lines 174–227): on successful acquisition store
the stream, attach it to the video element, and (re)start the 20 ms
capture interval with a fresh handle; on any acquisition failure the
catch block only alerts and sets status to ERROR — the interval is
never touched. -/
def startStreaming (freshId : Nat) (s : CamState) (r : AcquireResult) : CamState :=
  match r with
  | .ok tracks =>
    { s with
      streamRef := some tracks
      videoSrcObject := true
      intervalRef := some freshId }
  | .unsupported => { s with status := "ERROR" }
  | .failure _ => { s with status := "ERROR" }

/-- The `onloadedmetadata` callback after playback starts (lines
200–210): flip `streaming` and show STREAMING. -/
def onVideoReady (s : CamState) : CamState :=
  { s with streaming := true, status := "STREAMING" }

/-- The `deploy:assigned` handler (lines 147–152): set deployed, show
DEPLOYED, then run `startStreaming` with the given acquisition
outcome. -/
def onDeployAssigned (freshId : Nat) (s : CamState) (r : AcquireResult) : CamState :=
  let s1 := { s with deployed := true, status := "DEPLOYED" }
  startStreaming freshId s1 r

/-- The `deploy:stop` handler (lines 154–159): clear deployed, show
STOPPED, then `stopStreaming`. -/
def onDeployStop (capturedDeployed : Bool) (s : CamState) : CamState × List Track :=
  let s1 := { s with deployed := false, status := "STOPPED" }
  stopStreaming capturedDeployed s1

/-- The socket `disconnect` handler (lines 137–144): clear connected
and deployed, show DISCONNECTED, then `stopStreaming`. -/
def onSocketDisconnect (capturedDeployed : Bool) (s : CamState) : CamState × List Track :=
  let s1 := { s with connected := false, deployed := false, status := "DISCONNECTED" }
  stopStreaming capturedDeployed s1

/-- The `useEffect` cleanup (lines 166–170): `stopStreaming` before the
socket teardown. -/
def effectCleanup (capturedDeployed : Bool) (s : CamState) : CamState × List Track :=
  stopStreaming capturedDeployed s

/-! ## Overlay renderer (`src/unnamed/part_000`, the VideoTile component) -/

/-- The canvas drawing operations the renderer issues, with the fill or
stroke style attached to each operation. -/
inductive DrawCmd where
  | drawImage (width height : ℚ)
  | strokeRect (color : String) (lineWidth : ℚ) (x y w h : ℚ)
  | fillRect (color : String) (x y w h : ℚ)
  | fillText (color : String) (text : String) (x y : ℚ)
deriving DecidableEq, Repr

/-- The `colorMap[label] || '#00FF00'` lookup (lines 75–87). -/
def colorMap (label : String) : String :=
  if label == "Human" then "#FFFF00"
  else if label == "Weapon" then "#FF0000"
  else if label == "Vehicle" then "#0000FF"
  else "#00FF00"

/-- `labels[i] || 'Unknown'` (line 83): out-of-bounds access yields
`undefined`, and both `undefined` and the empty string are falsy. -/
def jsIndexLabel (labels : List String) (i : Nat) : String :=
  match labels.get? i with
  | some l => if l == "" then "Unknown" else l
  | none => "Unknown"

/-- `confidences[i] || 0` (line 84): out-of-bounds access yields
`undefined`, hence 0; a numeric 0 is also mapped to 0, which is the
identity on rationals. -/
def jsIndexConf (confidences : List ℚ) (i : Nat) : ℚ :=
  (confidences.get? i).getD 0

/-- `(x).toFixed(0)` for a rational: the nearest integer, ties toward
positive infinity. -/
def jsToFixed0 (q : ℚ) : Int :=
  ⌊q + 1/2⌋

/-- The body of the `boxes.forEach((box, i) => …)` callback (lines
81–106): one stroked box, one filled label chip sized from
`measureText`, and the black label text.  `measure` stands for
`ctx.measureText(labelText).width`. -/
def drawBox (measure : String → ℚ) (labels : List String) (confidences : List ℚ)
    (i : Nat) (box : ℚ × ℚ × ℚ × ℚ) : List DrawCmd :=
  let x1 := box.1
  let y1 := box.2.1
  let x2 := box.2.2.1
  let y2 := box.2.2.2
  let label := jsIndexLabel labels i
  let conf := jsIndexConf confidences i
  let color := colorMap label
  let labelText := label ++ " " ++ toString (jsToFixed0 (conf * 100)) ++ "%"
  let textHeight : ℚ := 20
  [ .strokeRect color 3 x1 y1 (x2 - x1) (y2 - y1),
    .fillRect color x1 (y1 - textHeight) (measure labelText + 10) textHeight,
    .fillText "#000000" labelText (x1 + 5) (y1 - 5) ]

/-- `drawBoundingBoxes` (lines 69–107): empty boxes draw nothing,
otherwise each box is drawn in order with its label chip. -/
def drawBoundingBoxes (measure : String → ℚ) (d : DetectionSet) : List DrawCmd :=
  if d.boxes.isEmpty then []
  else d.boxes.enum.flatMap (fun p => drawBox measure d.labels d.confidences p.1 p.2)

/-- Outcome of decoding the inbound base64 frame into an image. -/
inductive FrameDecode where
  | ok (width height : ℚ)
  | decodeError
deriving DecidableEq, Repr

/-- The render effect of VideoTile (lines 24–66): on decode success
(`img.onload`) size the canvas, draw the base frame, and overlay boxes
when a detection set with a boxes field is present; on decode failure
(`img.onerror`) fill a dark placeholder of the previous canvas size
(defaulting 300×200 when unset) and write "Frame Load Error". -/
def renderTile (measure : String → ℚ) (prevW prevH : ℚ)
    (frame : FrameDecode) (detections : Option DetectionSet) : List DrawCmd :=
  match frame with
  | .ok w h =>
    .drawImage w h ::
      (match detections with
       | some d => drawBoundingBoxes measure d
       | none => [])
  | .decodeError =>
    [ .fillRect "#333" 0 0 (if prevW == 0 then 300 else prevW)
        (if prevH == 0 then 200 else prevH),
      .fillText "#fff" "Frame Load Error" 10 20 ]

/-! ## Socket module (`src/src/utils/socket.js`) -/

/-- A socket.io client instance: its identity (which `io(...)` call
created it) and its `connected` flag. -/
structure ClientSocket where
  id : Nat
  connected : Bool
deriving DecidableEq, Repr

/-- The module-level `socket` singleton (line 24). -/
structure SocketModule where
  socket : Option ClientSocket
deriving DecidableEq, Repr

/-- Result of a `connectSocket` call: the returned value, the module
state afterwards, and how many `io(...)` connection constructions the
call performed. -/
structure ConnectResult where
  ret : Option ClientSocket
  state : SocketModule
  handshakes : Nat
deriving DecidableEq, Repr

/-- `socket && socket.connected` (lines 33 and 110). -/
def socketIsLive (m : SocketModule) : Bool :=
  match m.socket with
  | some s => s.connected
  | none => false

/-- `connectSocket` (lines 32–81): return the existing socket when it
is live; refuse with null on a falsy token; otherwise build a fresh
client via `io(...)` (one handshake), store it in the singleton, and
return it.  A freshly constructed client is not yet connected. -/
def connectSocket (m : SocketModule) (token : String) (freshId : Nat) : ConnectResult :=
  if socketIsLive m then
    { ret := m.socket, state := m, handshakes := 0 }
  else if token == "" then
    { ret := none, state := m, handshakes := 0 }
  else
    let s : ClientSocket := { id := freshId, connected := false }
    { ret := some s, state := { socket := some s }, handshakes := 1 }

/-- The `connect` transport event firing on the stored socket (lines
63–65 register the handler; the transport flips `connected`). -/
def markConnected (m : SocketModule) : SocketModule :=
  { socket := m.socket.map (fun s => { s with connected := true }) }

/-- Result of an `emitEvent` call: the messages actually emitted and
whether a fault was logged. -/
structure EmitResult where
  emitted : List (String × String)
  loggedError : Bool
deriving DecidableEq, Repr

/-- `emitEvent` (lines 109–115): emit only when the singleton exists
and is connected; otherwise log an error and emit nothing.  It is a
total function — no exception reaches the caller. -/
def emitEvent (m : SocketModule) (event : String) (data : String) : EmitResult :=
  if socketIsLive m then
    { emitted := [(event, data)], loggedError := false }
  else
    { emitted := [], loggedError := true }

/-! ## Claims about the admin aggregator -/

/-- C1 (counterexample): after the arrival of a count-1 detection for
sid "s1" followed by the disconnect of "s1", the payload map is empty
(sum of counts 0) but `stats.activeThreats` is still 1, so the claimed
invariant fails after a removal event. -/
theorem C1_counterexample :
    ¬ ((runAdmin initialAdminState
          [.arrival samplePayload, .disconnect "s1"]).stats.activeThreats
        = sumCounts (runAdmin initialAdminState
          [.arrival samplePayload, .disconnect "s1"]).detections) := by
  decide

/-- Claim C1 (amended): after every detection-arrival event,
`activeThreats` equals the sum of `detections.count` over the payloads
currently held; payload-removal events (camera disconnects and locally
issued stops) delete the payload but leave `activeThreats` unchanged,
so the equality is restored only by the next arrival. -/
theorem C1_amended_activeThreats (s : AdminState) (d : DetectionPayload)
    (sid : String) (c : Bool) :
    (onDetectionResult s d).stats.activeThreats
        = sumCounts (onDetectionResult s d).detections
    ∧ (onCameraDisconnect s sid).stats.activeThreats = s.stats.activeThreats
    ∧ (handleStop s sid c).stats.activeThreats = s.stats.activeThreats := by
  refine ⟨rfl, rfl, ?_⟩
  unfold handleStop
  split <;> rfl

/-- Claim C2: the `camera:disconnect` handler removes both the
CameraRecord with the given sid from the registry and the detection
payload keyed by that sid; afterwards no record or payload with that
sid is observable in the state. -/
theorem C2_disconnect_removes_both (s : AdminState) (sid : String) :
    ((onCameraDisconnect s sid).cameras.filter (fun cam => cam.sid == sid)) = []
    ∧ ((onCameraDisconnect s sid).detections.filter (fun p => p.1 == sid)) = [] := by
  constructor <;>
    simp [onCameraDisconnect, List.filter_filter]

/-- Claim C10: the `camera:connected` handler appends a fresh record
with `deployed := false` without checking for an existing record with
the same sid, so two connect events with one sid leave two records for
that sid and `totalCameras` (the list length) counts both. -/
theorem C10_duplicate_connected (s : AdminState) (sid u1 c1 u2 c2 : String) :
    (onCameraConnected (onCameraConnected s sid u1 c1) sid u2 c2).cameras
      = s.cameras ++
        [{ sid := sid, username := u1, camera_id := c1, deployed := false },
         { sid := sid, username := u2, camera_id := c2, deployed := false }]
    ∧ (onCameraConnected (onCameraConnected s sid u1 c1) sid u2 c2).stats.totalCameras
      = s.cameras.length + 2
    ∧ ((onCameraConnected (onCameraConnected s sid u1 c1) sid u2 c2).cameras.filter
        (fun cam => cam.sid == sid)).length
      = (s.cameras.filter (fun cam => cam.sid == sid)).length + 2 := by
  refine ⟨?_, ?_, ?_⟩ <;>
    simp [onCameraConnected, updateStats, List.filter_append]

/-! ## Claims about the camera client -/

/-- Claim C3: on every loop-stop trigger — the `deploy:stop` handler,
the transport-disconnect handler, or the effect-teardown cleanup — the
recurring capture timer is cancelled (handle nulled), the stream handle
is released, and every track of the acquired capture stream has been
stopped, all before control returns. -/
theorem C3_stop_releases_resources (d : Bool) (s : CamState) :
    ((onDeployStop d s).1.intervalRef = none
      ∧ (onDeployStop d s).1.streamRef = none
      ∧ (onDeployStop d s).2
          = (s.streamRef.getD []).map (fun t => { t with stopped := true })
      ∧ (onDeployStop d s).2.all (fun t => t.stopped) = true)
    ∧ ((onSocketDisconnect d s).1.intervalRef = none
      ∧ (onSocketDisconnect d s).1.streamRef = none
      ∧ (onSocketDisconnect d s).2
          = (s.streamRef.getD []).map (fun t => { t with stopped := true })
      ∧ (onSocketDisconnect d s).2.all (fun t => t.stopped) = true)
    ∧ ((effectCleanup d s).1.intervalRef = none
      ∧ (effectCleanup d s).1.streamRef = none
      ∧ (effectCleanup d s).2
          = (s.streamRef.getD []).map (fun t => { t with stopped := true })
      ∧ (effectCleanup d s).2.all (fun t => t.stopped) = true) := by
  cases hs : s.streamRef <;>
    simp [onDeployStop, onSocketDisconnect, effectCleanup, stopStreaming, hs,
      List.all_eq_true]

/-- Claim C7: when capture-device acquisition fails after a deploy
command — the unsupported-browser throw or a getUserMedia rejection —
the status surface ends at ERROR and the capture/transmit interval is
never started (timer handle, stream handle, and streaming flag are all
left as they were). -/
theorem C7_acquire_failure_error (freshId : Nat) (s : CamState) (msg : String) :
    ((onDeployAssigned freshId s .unsupported).status = "ERROR"
      ∧ (onDeployAssigned freshId s .unsupported).intervalRef = s.intervalRef
      ∧ (onDeployAssigned freshId s .unsupported).streamRef = s.streamRef
      ∧ (onDeployAssigned freshId s .unsupported).streaming = s.streaming)
    ∧ ((onDeployAssigned freshId s (.failure msg)).status = "ERROR"
      ∧ (onDeployAssigned freshId s (.failure msg)).intervalRef = s.intervalRef
      ∧ (onDeployAssigned freshId s (.failure msg)).streamRef = s.streamRef
      ∧ (onDeployAssigned freshId s (.failure msg)).streaming = s.streaming) := by
  simp [onDeployAssigned, startStreaming]

/-! ## Claims about the overlay renderer -/

/-- Claim C4: for every detection set with mismatched array lengths
the renderer completes without fault — it issues exactly three drawing
operations per box, whatever the labels and confidences arrays hold —
and any box index beyond the end of the labels array uses the default
label "Unknown", any index beyond the confidences array uses the
default confidence 0, and a box beyond both renders the chip
"Unknown 0%" in the fallback color. -/
theorem C4_mismatched_defaults (measure : String → ℚ) (d : DetectionSet)
    (i : Nat) (x1 y1 x2 y2 : ℚ) :
    (drawBoundingBoxes measure d).length = 3 * d.boxes.length
    ∧ (d.labels.length ≤ i → jsIndexLabel d.labels i = "Unknown")
    ∧ (d.confidences.length ≤ i → jsIndexConf d.confidences i = 0)
    ∧ (d.labels.length ≤ i → d.confidences.length ≤ i →
        drawBox measure d.labels d.confidences i (x1, y1, x2, y2) =
          [ .strokeRect "#00FF00" 3 x1 y1 (x2 - x1) (y2 - y1),
            .fillRect "#00FF00" x1 (y1 - 20) (measure "Unknown 0%" + 10) 20,
            .fillText "#000000" "Unknown 0%" (x1 + 5) (y1 - 5) ] ) := by
  refine ⟨?_, ?_, ?_, ?_⟩
  · unfold drawBoundingBoxes
    split
    · simp_all [List.isEmpty_iff]
    · have hone : ∀ p : Nat × (ℚ × ℚ × ℚ × ℚ),
          (drawBox measure d.labels d.confidences p.1 p.2).length = 3 :=
        fun p => rfl
      rw [List.length_flatMap]
      simp only [Function.comp_def]
      simp [hone, List.map_const', List.sum_replicate, smul_eq_mul, Nat.mul_comm]
  · intro hl
    unfold jsIndexLabel
    rw [List.get?_eq_none.mpr hl]
  · intro hc
    unfold jsIndexConf
    rw [List.get?_eq_none.mpr hc]
    rfl
  · intro hl hc
    have h1 : jsIndexLabel d.labels i = "Unknown" := by
      unfold jsIndexLabel
      rw [List.get?_eq_none.mpr hl]
    have h2 : jsIndexConf d.confidences i = 0 := by
      unfold jsIndexConf
      rw [List.get?_eq_none.mpr hc]
      rfl
    have h3 : jsToFixed0 ((0 : ℚ) * 100) = 0 := by
      unfold jsToFixed0
      rw [Int.floor_eq_zero_iff]
      constructor <;> norm_num
    unfold drawBox
    rw [h1, h2]
    simp only [h3]
    rfl

/-- C4 witness: a one-box detection set with empty labels and
confidences arrays still renders its three operations, with the
default chip "Unknown 0%". -/
theorem C4_mismatched_defaults_witness :
    (drawBoundingBoxes (fun _ => 5)
        { count := 1, boxes := [((1 : ℚ), 2, 3, 4)],
          labels := [], confidences := [] }).length = 3 * 1
    ∧ jsIndexLabel [] 0 = "Unknown"
    ∧ jsIndexConf [] 0 = 0
    ∧ drawBox (fun _ => 5) [] [] 0 ((1 : ℚ), 2, 3, 4) =
      [ .strokeRect "#00FF00" 3 1 2 (3 - 1) (4 - 2),
        .fillRect "#00FF00" 1 (2 - 20) ((fun _ => (5 : ℚ)) "Unknown 0%" + 10) 20,
        .fillText "#000000" "Unknown 0%" (1 + 5) (2 - 5) ] := by
  have h := C4_mismatched_defaults (fun _ => 5)
    { count := 1, boxes := [((1 : ℚ), 2, 3, 4)], labels := [], confidences := [] }
    0 1 2 3 4
  exact ⟨h.1, h.2.1 (by decide), h.2.2.1 (by decide), h.2.2.2 (by decide) (by decide)⟩

/-- Claim C6: when the detection set is absent, or present with an
empty boxes array, the rendered output is exactly the base frame draw —
no boxes, chips, or text are composited. -/
theorem C6_no_boxes_identity (measure : String → ℚ) (pw ph w h : ℚ)
    (dopt : Option DetectionSet)
    (hd : dopt = none ∨ ∃ d, dopt = some d ∧ d.boxes = []) :
    renderTile measure pw ph (.ok w h) dopt = [.drawImage w h] := by
  rcases hd with h1 | ⟨d, h1, h2⟩ <;> subst h1 <;>
    simp [renderTile, drawBoundingBoxes, *]

/-- C6 witness: an empty-boxes detection set renders only the base
frame. -/
theorem C6_no_boxes_identity_witness :
    renderTile (fun _ => 0) 0 0 (.ok 640 480)
      (some { count := 0, boxes := [], labels := [], confidences := [] })
      = [.drawImage 640 480] :=
  C6_no_boxes_identity (fun _ => 0) 0 0 640 480 _ (Or.inr ⟨_, rfl, rfl⟩)

/-- Claim C8: for every inbound frame that fails to decode, the
renderer produces the placeholder — a solid `#333` fill over the
previous canvas area and the text "Frame Load Error" — whatever the
detection payload holds; `renderTile` is a total function, so no decode
fault reaches the caller. -/
theorem C8_decode_error_placeholder (measure : String → ℚ) (pw ph : ℚ)
    (dopt : Option DetectionSet) :
    renderTile measure pw ph .decodeError dopt =
      [ .fillRect "#333" 0 0 (if pw == 0 then 300 else pw)
          (if ph == 0 then 200 else ph),
        .fillText "#fff" "Frame Load Error" 10 20 ] := rfl

/-! ## Claims about the socket module -/

/-- Claim C5: calling `connectSocket` again while the stored session is
connected returns the very session the first call created (same
identity, now connected), performs no second handshake (the `io(...)`
construction count is 0), and leaves the module state untouched. -/
theorem C5_connect_idempotent (token : String) (h : token ≠ "") (id1 id2 : Nat) :
    (connectSocket { socket := none } token id1).handshakes = 1
    ∧ (connectSocket { socket := none } token id1).ret
        = some { id := id1, connected := false }
    ∧ (connectSocket
        (markConnected (connectSocket { socket := none } token id1).state)
        token id2).handshakes = 0
    ∧ (connectSocket
        (markConnected (connectSocket { socket := none } token id1).state)
        token id2).ret = some { id := id1, connected := true }
    ∧ (connectSocket
        (markConnected (connectSocket { socket := none } token id1).state)
        token id2).state
      = markConnected (connectSocket { socket := none } token id1).state := by
  have ht : (token == "") = false := by
    simpa using h
  simp [connectSocket, markConnected, socketIsLive, ht]

/-- C5 witness: with token "tok" and fresh ids 7 and 8, the second
call performs no handshake and returns the first call's session. -/
theorem C5_connect_idempotent_witness :
    (connectSocket { socket := none } "tok" 7).handshakes = 1
    ∧ (connectSocket { socket := none } "tok" 7).ret
        = some { id := 7, connected := false }
    ∧ (connectSocket
        (markConnected (connectSocket { socket := none } "tok" 7).state)
        "tok" 8).handshakes = 0
    ∧ (connectSocket
        (markConnected (connectSocket { socket := none } "tok" 7).state)
        "tok" 8).ret = some { id := 7, connected := true }
    ∧ (connectSocket
        (markConnected (connectSocket { socket := none } "tok" 7).state)
        "tok" 8).state
      = markConnected (connectSocket { socket := none } "tok" 7).state :=
  C5_connect_idempotent "tok" (by decide) 7 8

/-- Claim C9: `emitEvent` on a module whose socket is absent or not
connected is a total call that emits nothing and records only a logged
fault — no exception reaches the caller. -/
theorem C9_emit_disconnected_silent (m : SocketModule) (event data : String)
    (h : socketIsLive m = false) :
    emitEvent m event data = { emitted := [], loggedError := true } := by
  simp [emitEvent, h]

/-- C9 witness: emitting on the never-initialized module logs a fault
and sends nothing. -/
theorem C9_emit_disconnected_silent_witness :
    socketIsLive { socket := none } = false
    ∧ emitEvent { socket := none } "deploy_start" "x"
        = { emitted := [], loggedError := true } :=
  ⟨rfl, C9_emit_disconnected_silent { socket := none } "deploy_start" "x" rfl⟩
